import Mathlib

/-!
Verification of the admission and lifecycle controller of the inference
router (src/router/app.py).

The development shallowly embeds the router's core:
`estimate_tokens` / `estimate_request_tokens` (token estimator),
`choose_backend` (backend selector), `ensure_online_backend` and
`ensure_and_get_backend` (lifecycle controller and admission front end),
`ttl_for_backend` and the per-backend body of `ttl_sweeper` (reaper), and
the inflight/sticky bookkeeping of the request handlers as a labelled
transition system.  Side effects (container status queries, health probes,
container start/stop, lock acquisition, sleeps) are recorded as an explicit
action trace; outcomes of the environment (container states, probe results,
start failures) are supplied by an oracle structure `Env`.
-/

/-- Static registry entry, mirroring the value dictionaries of `BACKENDS`
(src/router/app.py lines 138-154). -/
structure Meta where
  model : String
  kind : String
  gpu : String
  strategy : String
  base : String
  container : String
deriving DecidableEq, Repr

/-- The static registry `BACKENDS` in Python dict insertion order
(src/router/app.py lines 138-154). -/
def BACKENDS : List (String × Meta) :=
  [ ("llama31-8b-instruct@0",
      ⟨"llama31-8b-instruct", "chat", "0", "long", "http://llama_0:8000/v1", "llama_0"⟩),
    ("deepseek-r1-8b@0",
      ⟨"deepseek-r1-8b", "chat", "0", "long", "http://r1_0:8000/v1", "r1_0"⟩),
    ("qwen-coder-7b@0",
      ⟨"qwen-coder-7b", "chat", "0", "long", "http://qwen_0:8000/v1", "qwen_0"⟩),
    ("nemo-minitron-8b-instruct@0",
      ⟨"nemo-minitron-8b-instruct", "chat", "0", "long", "http://minitron_0:8000/v1", "minitron_0"⟩),
    ("llama31-8b-instruct@1",
      ⟨"llama31-8b-instruct", "chat", "1", "throughput", "http://llama_1:8000/v1", "llama_1"⟩),
    ("deepseek-r1-8b@1",
      ⟨"deepseek-r1-8b", "chat", "1", "throughput", "http://r1_1:8000/v1", "r1_1"⟩),
    ("qwen-coder-7b@1",
      ⟨"qwen-coder-7b", "chat", "1", "throughput", "http://qwen_1:8000/v1", "qwen_1"⟩),
    ("nemo-minitron-8b-instruct@1",
      ⟨"nemo-minitron-8b-instruct", "chat", "1", "throughput", "http://minitron_1:8000/v1", "minitron_1"⟩),
    ("bge-m3@1",
      ⟨"bge-m3", "embeddings", "1", "throughput", "http://bge_embed_1:8000/v1", "bge_embed_1"⟩),
    ("bge-reranker@1",
      ⟨"bge-reranker", "rerank", "1", "throughput", "http://bge_reranker_1:8000/v1", "bge_reranker_1"⟩) ]

/-- Registry lookup.  Python indexes `BACKENDS[bk]` with keys that are always
present; the default entry stands for the (never exercised) missing case. -/
def metaOf (bk : String) : Meta :=
  (BACKENDS.lookup bk).getD ⟨"", "", "", "", "", ""⟩

/-- Derived model index `MODEL_BACKENDS` (src/router/app.py lines 156-158):
for each model, the backend ids serving it in registry insertion order. -/
def model_backends (model : String) : List String :=
  (BACKENDS.filter (fun p => p.2.model == model)).map Prod.fst

/-- The set `GPU1_GENERATORS` (src/router/app.py line 160). -/
def GPU1_GENERATORS : List String :=
  ["deepseek-r1-8b", "qwen-coder-7b", "nemo-minitron-8b-instruct", "llama31-8b-instruct"]

/-- The per-model cap table `CAPS` with its default env values
(src/router/app.py lines 51-58). -/
def CAPS : List (String × Nat) :=
  [ ("llama31-8b-instruct", 8), ("deepseek-r1-8b", 6), ("qwen-coder-7b", 8),
    ("nemo-minitron-8b-instruct", 9), ("bge-m3", 8), ("bge-reranker", 4) ]

/-- `CAPS.get(model_id, 1)` (src/router/app.py line 337). -/
def capFor (model : String) : Nat :=
  (CAPS.lookup model).getD 1

/-- Feature flags and policy constants read from the environment at boot
(src/router/app.py lines 25-48).  Kept abstract so theorems can quantify over
flag settings; `defaultCfg` carries the env defaults. -/
structure Cfg where
  oneHeavy : Bool
  webuiFailFast : Bool
  preemptGpu1 : Bool
  stopEmbed : Bool
  keepLast : Bool
  adaptive : Bool
  threshold : Int
  maxRetries : Nat
  globalTtlMin : Nat
  gpu1TtlMin : Nat
  graceIdleMin : Nat

/-- The default configuration (src/router/app.py lines 32-48 defaults). -/
def defaultCfg : Cfg :=
  { oneHeavy := true, webuiFailFast := true, preemptGpu1 := true,
    stopEmbed := true, keepLast := true, adaptive := true,
    threshold := 4096, maxRetries := 3,
    globalTtlMin := 20, gpu1TtlMin := 15, graceIdleMin := 5 }

/-!
Token estimator (src/router/app.py lines 110-133).

Payloads are arbitrary JSON values; Python's dynamic semantics (TypeError on
`len` of a non-sized value, AttributeError on `.get` of a non-dict,
TypeError on iterating a non-iterable or adding a non-number) are embedded
through `Except String`.
-/

/-- JSON values as delivered by the HTTP layer. -/
inductive Jv
| null
| jb (b : Bool)
| ji (n : Int)
| js (s : String)
| ja (xs : List Jv)
| jo (kvs : List (String × Jv))
deriving Repr

/-- Python `len` on a JSON value: defined for strings, lists and dicts,
a TypeError otherwise. -/
def pyLen : Jv → Except String Int
| Jv.js s => Except.ok (s.length : Int)
| Jv.ja xs => Except.ok (xs.length : Int)
| Jv.jo kvs => Except.ok (kvs.length : Int)
| _ => Except.error "TypeError: object has no len"

/-- Python iteration over a JSON value: lists yield their elements, strings
their one-character strings, dicts their keys; other values raise. -/
def pyIter : Jv → Except String (List Jv)
| Jv.ja xs => Except.ok xs
| Jv.js s => Except.ok (s.toList.map (fun c => Jv.js (String.mk [c])))
| Jv.jo kvs => Except.ok (kvs.map (fun kv => Jv.js kv.1))
| _ => Except.error "TypeError: object is not iterable"

/-- Python `x.get(key, default)`: defined on dicts, an AttributeError on
anything else. -/
def pyGet (v : Jv) (key : String) (dflt : Jv) : Except String Jv :=
  match v with
  | Jv.jo kvs => Except.ok ((kvs.lookup key).getD dflt)
  | _ => Except.error "AttributeError: object has no attribute get"

/-- Python equality of a JSON value with the string literal used by the
check `item.get("type") == "text"` (src/router/app.py line 126). -/
def isTextTag : Jv → Bool
| Jv.js s => s == "text"
| _ => false

/-- `estimate_tokens` (src/router/app.py lines 110-112) applied to an
arbitrary value, behaving as Python `len(text) // 4` would. -/
def estimate_tokens (v : Jv) : Except String Int :=
  (pyLen v).map (fun n => n / 4)

/-- Contribution of one element of a list-shaped `content`
(src/router/app.py lines 125-127). -/
def itemTokens (item : Jv) : Except String Int :=
  match item with
  | Jv.jo kvs =>
      if isTextTag ((kvs.lookup "type").getD Jv.null) then
        estimate_tokens ((kvs.lookup "text").getD (Jv.js ""))
      else
        Except.ok 0
  | _ => Except.ok 0

/-- Sum of the contributions of the elements of a list-shaped `content`,
raising at the first failing element, as the Python loop does. -/
def itemsTokens : List Jv → Except String Int
| [] => Except.ok 0
| item :: rest => do
    let c ← itemTokens item
    let r ← itemsTokens rest
    Except.ok (c + r)

/-- Contribution of one message (src/router/app.py lines 121-127). -/
def msgTokens (msg : Jv) : Except String Int := do
  let content ← pyGet msg "content" (Jv.js "")
  match content with
  | Jv.js s => Except.ok ((s.length : Int) / 4)
  | Jv.ja items => itemsTokens items
  | _ => Except.ok 0

/-- Sum of the message contributions, raising at the first failure. -/
def messagesTokens : List Jv → Except String Int
| [] => Except.ok 0
| msg :: rest => do
    let c ← msgTokens msg
    let r ← messagesTokens rest
    Except.ok (c + r)

/-- Python `total += max_tokens` (src/router/app.py lines 130-131): ints add,
bools coerce to 0 or 1, anything else raises a TypeError. -/
def addMaxTokens (total : Int) (mt : Jv) : Except String Int :=
  match mt with
  | Jv.ji n => Except.ok (total + n)
  | Jv.jb b => Except.ok (total + if b then 1 else 0)
  | _ => Except.error "TypeError: unsupported operand types for +"

/-- `estimate_request_tokens` (src/router/app.py lines 114-133) on a chat
payload given as the field list of a JSON object. -/
def estimate_request_tokens (payload : List (String × Jv)) : Except String Int := do
  let msgs ← pyIter ((payload.lookup "messages").getD (Jv.ja []))
  let total ← messagesTokens msgs
  addMaxTokens total ((payload.lookup "max_tokens").getD (Jv.ji 512))

/-- Spec-side contribution of one content part, following the claim wording:
text parts contribute the floor of a quarter of the length of their string
text, everything else contributes zero. -/
def specItemTokens : Jv → Int
| Jv.jo kvs =>
    if isTextTag ((kvs.lookup "type").getD Jv.null) then
      match (kvs.lookup "text").getD (Jv.js "") with
      | Jv.js s => (s.length : Int) / 4
      | _ => 0
    else 0
| _ => 0

/-- Spec-side contribution of one message. -/
def specMsgTokens : Jv → Int
| Jv.jo kvs =>
    match (kvs.lookup "content").getD (Jv.js "") with
    | Jv.js s => (s.length : Int) / 4
    | Jv.ja items => (items.map specItemTokens).sum
    | _ => 0
| _ => 0

/-- Spec-side total estimate, following the claim wording: sum of the message
contributions plus `max_tokens` (512 when absent). -/
def specEstimate (payload : List (String × Jv)) : Int :=
  (match (payload.lookup "messages").getD (Jv.ja []) with
   | Jv.ja ms => (ms.map specMsgTokens).sum
   | _ => 0) +
  (match (payload.lookup "max_tokens").getD (Jv.ji 512) with
   | Jv.ji n => n
   | _ => 0)

/-- A content part is well shaped when, if it is a text-tagged object with an
explicit text field, that field holds a string. -/
def ItemOk (item : Jv) : Prop :=
  ∀ kvs, item = Jv.jo kvs →
    isTextTag ((kvs.lookup "type").getD Jv.null) = true →
    ∀ tv, kvs.lookup "text" = some tv → ∃ s, tv = Jv.js s

/-- A message is well shaped when it is an object whose content, if a list,
has only well-shaped parts. -/
def MsgOk (msg : Jv) : Prop :=
  ∃ kvs, msg = Jv.jo kvs ∧
    ∀ items, (kvs.lookup "content").getD (Jv.js "") = Jv.ja items →
      ∀ it ∈ items, ItemOk it

/-- A chat payload is well shaped when its messages field, if present, is a
list of well-shaped messages, and its max_tokens field, if present, is a
non-negative integer. -/
def PayloadOk (payload : List (String × Jv)) : Prop :=
  (∀ v, payload.lookup "messages" = some v →
     ∃ ms, v = Jv.ja ms ∧ ∀ m ∈ ms, MsgOk m) ∧
  (∀ v, payload.lookup "max_tokens" = some v → ∃ n : Int, v = Jv.ji n ∧ 0 ≤ n)

/-!
Backend selector `choose_backend` (src/router/app.py lines 266-325).

The selector reads the per-GPU sticky map; it is pure otherwise.
-/

/-- Mutable selector-visible state: `sticky_backend_by_gpu`
(src/router/app.py line 172). -/
structure SelSt where
  sticky : String → Option String

/-- The sticky-preference loop of `choose_backend`
(src/router/app.py lines 282-293), scanning the given GPU ids in order. -/
def stickyScanLoop (cfg : Cfg) (sel : SelSt) (model : String) (est : Option Int) :
    List String → Option String
| [] => none
| g :: gs =>
    match sel.sticky g with
    | none => stickyScanLoop cfg sel model est gs
    | some sb =>
        if (metaOf sb).model == model then
          match est with
          | some e =>
              if cfg.adaptive then
                let needsLong := cfg.threshold < e
                if (needsLong && (metaOf sb).strategy == "long")
                    || (!needsLong && (metaOf sb).strategy == "throughput") then
                  some sb
                else
                  stickyScanLoop cfg sel model est gs
              else some sb
          | none => some sb
        else stickyScanLoop cfg sel model est gs

/-- `choose_backend` (src/router/app.py lines 266-325). -/
def choose_backend (cfg : Cfg) (sel : SelSt) (model : String) (est : Option Int)
    (role : Option String) : Option String :=
  let backends := model_backends model
  if backends.isEmpty then none
  else
    match stickyScanLoop cfg sel model est ["0", "1"] with
    | some sb => some sb
    | none =>
        let adaptiveRes : Option String :=
          match est with
          | some e =>
              if cfg.adaptive then
                if cfg.threshold < e then
                  backends.find? (fun b => (metaOf b).strategy == "long")
                else
                  backends.find? (fun b => (metaOf b).strategy == "throughput")
              else none
          | none => none
        match adaptiveRes with
        | some bk => some bk
        | none =>
            let roleRes : Option String :=
              if role == some "webui" then
                backends.find? (fun b => (metaOf b).gpu == "0")
              else if role == some "n8n" then
                backends.find? (fun b => (metaOf b).gpu == "1")
              else none
            match roleRes with
            | some bk => some bk
            | none => backends.head?

/-- Spec-side sticky-match condition for claim C7: the sticky backend serves
the model, and either adaptive routing is disabled or an estimate is given
and the sticky backend strategy matches the inferred need (long iff the
estimate strictly exceeds the threshold, throughput otherwise). -/
def stickyMatchesSpec (cfg : Cfg) (model : String) (est : Option Int) (sb : String) : Prop :=
  (metaOf sb).model = model ∧
  (cfg.adaptive = false ∨
    ∃ e, est = some e ∧
      ((cfg.threshold < e ∧ (metaOf sb).strategy = "long") ∨
       (¬ cfg.threshold < e ∧ (metaOf sb).strategy = "throughput")))

/-!
Lifecycle controller `ensure_online_backend` (src/router/app.py lines
330-409) and admission front end `ensure_and_get_backend` (lines 441-460).

Side effects are recorded in an action trace.  The environment oracle `Env`
answers the k-th container status query, the k-th health wait, and the k-th
container start attempt; `Env.inflight` is the inflight table read by the cap
check, and `Env.tbText` is the traceback text captured when a start attempt
raises.
-/

/-- Observable side effects of a controller invocation. -/
inductive Act
| queryStatus (name : String)
| probeHealth (bk : String)
| acquireStart (bk : String)
| releaseStart (bk : String)
| acquireGpu (g : String)
| releaseGpu (g : String)
| startC (name : String)
| stopC (name : String)
| sleep (secs : Nat)
deriving DecidableEq, Repr

/-- Result of `container_status` as used by the controller
(src/router/app.py lines 81-88): the exists and running fields. -/
structure ContSt where
  ex : Bool
  running : Bool
deriving DecidableEq, Repr

/-- Environment oracle for one controller invocation. -/
structure Env where
  inflight : String → Nat
  contStatus : Nat → String → ContSt
  healthy : Nat → Bool
  startOk : Nat → Bool
  tbText : Nat → String

/-- Oracle-consumption counters: container status queries, health waits,
start attempts issued so far. -/
structure Cnt where
  q : Nat
  h : Nat
  s : Nat
deriving DecidableEq, Repr

/-- Effect monad of the controller: counters in, value, counters, and the
emitted action trace out. -/
def M (α : Type) : Type := Cnt → α × Cnt × List Act

instance : Monad M where
  pure a := fun c => (a, c, [])
  bind m f := fun c =>
    ((f (m c).1 (m c).2.1).1, (f (m c).1 (m c).2.1).2.1,
      (m c).2.2 ++ (f (m c).1 (m c).2.1).2.2)

/-- Emit an action with no other effect. -/
def emitA (a : Act) : M Unit := fun c => ((), c, [a])

/-- `container_status` (src/router/app.py lines 81-88): one status query,
answered by the environment. -/
def containerStatusA (env : Env) (name : String) : M ContSt := fun c =>
  (env.contStatus c.q name, { c with q := c.q + 1 }, [Act.queryStatus name])

/-- `wait_until_healthy` (src/router/app.py lines 252-261), abstracted to the
outcome of the probe loop within its deadline, answered by the environment. -/
def waitHealthyA (env : Env) (bk : String) : M Bool := fun c =>
  (env.healthy c.h, { c with h := c.h + 1 }, [Act.probeHealth bk])

/-- `start_container` (src/router/app.py lines 90-91): returns none on
success, or the traceback text when the engine call raises. -/
def startContainerA (env : Env) (name : String) : M (Option String) := fun c =>
  ((if env.startOk c.s then none else some (env.tbText c.s)),
    { c with s := c.s + 1 }, [Act.startC name])

/-- `stop_container` (src/router/app.py lines 93-105): best effort, never
raises to the caller. -/
def stopContainerA (name : String) : M Unit :=
  emitA (Act.stopC name)

/-- An async-with block: acquire, run the body, release on every exit path. -/
def withLockA (acq rel : Act) (m : M α) : M α := do
  emitA acq
  let x ← m
  emitA rel
  pure x

/-- Router error envelope: HTTP status, message, and error type of a
`json_error` response (src/router/app.py lines 65-66). -/
structure ErrResp where
  status : Nat
  msg : String
  typ : String
deriving DecidableEq, Repr

/-- Result of `ensure_online_backend`: none means ready, some is the typed
error response. -/
abbrev EResult := Option ErrResp

def rateLimitedErr (model : String) (mi cap : Nat) : ErrResp :=
  ⟨429, "Too many concurrent requests for \x27" ++ model ++ "\x27 (" ++
    toString mi ++ "/" ++ toString cap ++ ").", "rate_limited"⟩

def containerMissingErr (name : String) : ErrResp :=
  ⟨409, "Container \x27" ++ name ++
    "\x27 does not exist. Create it once via docker compose up.", "container_missing"⟩

def unhealthyErr (model : String) : ErrResp :=
  ⟨503, "Backend running but not healthy for \x27" ++ model ++ "\x27.", "unhealthy"⟩

def gpuBusyWebuiErr (gpu busyModel : String) : ErrResp :=
  ⟨503, "GPU" ++ gpu ++ " busy with \x27" ++ busyModel ++
    "\x27 (no preemption for webui).", "gpu_busy"⟩

def gpuBusyErr (gpu busyModel : String) : ErrResp :=
  ⟨503, "GPU" ++ gpu ++ " busy with \x27" ++ busyModel ++ "\x27.", "gpu_busy"⟩

def startFailedErr (maxRetries : Nat) (lastErr : Option String) : ErrResp :=
  ⟨503, "Backend start failed after " ++ toString maxRetries ++ " attempts: " ++
    lastErr.getD "unhealthy", "start_failed"⟩

def unknownModelErr (model : String) : ErrResp :=
  ⟨400, "Unknown model \x27" ++ model ++ "\x27.", "unknown_model"⟩

def noBackendErr (model : String) : ErrResp :=
  ⟨503, "No available backend for \x27" ++ model ++ "\x27.", "gpu_busy"⟩

/-- Sum of `inflight` across all backends of the model
(src/router/app.py line 336). -/
def modelInflight (env : Env) (model : String) : Nat :=
  ((model_backends model).map env.inflight).sum

/-- `running_heavy_backend_on_gpu` (src/router/app.py lines 180-191): scan
the registry in insertion order for a chat backend on the GPU, other than the
given one, whose container exists and is running; stop at the first hit. -/
def scanHeavy (env : Env) (gpu : String) (ex : Option String) :
    List (String × Meta) → M (Option String)
| [] => pure none
| (b, m) :: rest =>
    if m.gpu != gpu then scanHeavy env gpu ex rest
    else if ex == some b then scanHeavy env gpu ex rest
    else if m.kind != "chat" then scanHeavy env gpu ex rest
    else do
      let st ← containerStatusA env m.container
      if st.ex && st.running then pure (some b)
      else scanHeavy env gpu ex rest

def running_heavy_backend_on_gpu (env : Env) (gpu : String) (ex : Option String) :
    M (Option String) :=
  scanHeavy env gpu ex BACKENDS

/-- `stop_gpu1_embed_rank_best_effort` (src/router/app.py lines 193-202),
with its two-element loop unrolled. -/
def stop_gpu1_embed_rank (env : Env) : M Unit := do
  let st1 ← containerStatusA env "bge_embed_1"
  if st1.ex && st1.running then stopContainerA "bge_embed_1" else pure ()
  let st2 ← containerStatusA env "bge_reranker_1"
  if st2.ex && st2.running then stopContainerA "bge_reranker_1" else pure ()
  emitA (Act.sleep 3)

/-- The running fast path shared by lines 346-348 and 352-354 of
src/router/app.py: probe health, admit on success, fail unhealthy. -/
def fastProbe (env : Env) (bk : String) (model : String) : M EResult := do
  let ok ← waitHealthyA env bk
  if ok then pure none else pure (some (unhealthyErr model))

/-- The one-heavy-per-GPU policy block executed under the GPU lock
(src/router/app.py lines 360-379).  Returns some error to abort admission,
or none to continue with startup. -/
def gpuPolicy (cfg : Cfg) (env : Env) (bk : String) (meta : Meta) (role : String) :
    M (Option ErrResp) :=
  if cfg.oneHeavy && (meta.kind == "chat") then do
    let busy ← running_heavy_backend_on_gpu env meta.gpu (some bk)
    match busy with
    | some busy_bk =>
        if role == "webui" && cfg.webuiFailFast then
          pure (some (gpuBusyWebuiErr meta.gpu (metaOf busy_bk).model))
        else if role == "n8n" && (meta.gpu == "1") && cfg.preemptGpu1 then do
          stopContainerA (metaOf busy_bk).container
          emitA (Act.sleep 3)
          pure none
        else
          pure (some (gpuBusyErr meta.gpu (metaOf busy_bk).model))
    | none => pure none
  else pure none

/-- The start-with-retries loop (src/router/app.py lines 385-409), by fuel on
the remaining attempts, carrying the last captured traceback. -/
def startLoop (cfg : Cfg) (env : Env) (bk : String) (meta : Meta) :
    Nat → Option String → M EResult
| 0, lastErr => pure (some (startFailedErr cfg.maxRetries lastErr))
| n + 1, lastErr => do
    let failed ← startContainerA env meta.container
    match failed with
    | some tb => do
        emitA (Act.sleep 2)
        startLoop cfg env bk meta n (some tb)
    | none => do
        let ok ← waitHealthyA env bk
        if ok then pure none
        else do
          stopContainerA meta.container
          emitA (Act.sleep 2)
          startLoop cfg env bk meta n lastErr

/-- The section executed under the GPU lock (src/router/app.py lines
358-409): one-heavy policy, embed/rerank displacement, start loop. -/
def startSection (cfg : Cfg) (env : Env) (bk : String) (meta : Meta) (role : String) :
    M EResult := do
  let pre ← gpuPolicy cfg env bk meta role
  match pre with
  | some e => pure (some e)
  | none => do
      if cfg.stopEmbed && (meta.gpu == "1") && GPU1_GENERATORS.contains meta.model then
        stop_gpu1_embed_rank env
      else pure ()
      startLoop cfg env bk meta cfg.maxRetries none

/-- `ensure_online_backend` (src/router/app.py lines 330-409). -/
def ensure_online_backend (cfg : Cfg) (env : Env) (bk : String) (role : String) :
    M EResult :=
  let meta := metaOf bk
  let mi := modelInflight env meta.model
  let cap := capFor meta.model
  if cap ≤ mi then pure (some (rateLimitedErr meta.model mi cap))
  else do
    let st ← containerStatusA env meta.container
    if !st.ex then pure (some (containerMissingErr meta.container))
    else if st.running then fastProbe env bk meta.model
    else
      withLockA (Act.acquireStart bk) (Act.releaseStart bk) (do
        let st2 ← containerStatusA env meta.container
        if st2.running then fastProbe env bk meta.model
        else
          withLockA (Act.acquireGpu meta.gpu) (Act.releaseGpu meta.gpu)
            (startSection cfg env bk meta role))

/-- Serialized body of a `json_error` response, as FastAPI renders it
(src/router/app.py line 66); only its substring content matters to the
admission front end. -/
def renderBody (e : ErrResp) : String :=
  "\x7b\"error\": \x7b\"message\": \"" ++ e.msg ++ "\", \"type\": \"" ++
    e.typ ++ "\"\x7d\x7d"

/-- The check `err.status_code == 503 and err.body and b"gpu_busy" in
err.body` (src/router/app.py line 455). -/
def charsInfix (needle hay : List Char) : Bool :=
  (List.range (hay.length + 1)).any (fun i => needle.isPrefixOf (hay.drop i))

def busyRetryable (e : ErrResp) : Bool :=
  e.status == 503 && charsInfix "gpu_busy".toList (renderBody e).toList

/-- The candidate loop of `ensure_and_get_backend`
(src/router/app.py lines 450-460). -/
def tryCandidates (cfg : Cfg) (env : Env) (model role : String) :
    List String → M (Option String × Option ErrResp)
| [] => pure (none, some (noBackendErr model))
| bk :: rest => do
    let r ← ensure_online_backend cfg env bk role
    match r with
    | none => pure (some bk, none)
    | some e =>
        if busyRetryable e then tryCandidates cfg env model role rest
        else pure (none, some e)

/-- `ensure_and_get_backend` (src/router/app.py lines 441-460). -/
def ensure_and_get_backend (cfg : Cfg) (env : Env) (sel : SelSt) (model role : String)
    (est : Option Int) : M (Option String × Option ErrResp) :=
  match choose_backend cfg sel model est (some role) with
  | none => pure (none, some (unknownModelErr model))
  | some bk0 =>
      tryCandidates cfg env model role (bk0 :: (model_backends model).filter (fun bk => bk != bk0))

/-- The per-candidate results the loop would see, threading the oracle
counters through successive controller invocations. -/
def candidatePairs (cfg : Cfg) (env : Env) (role : String) :
    List String → Cnt → List (String × EResult)
| [], _ => []
| bk :: rest, c =>
    (bk, (ensure_online_backend cfg env bk role c).1) ::
      candidatePairs cfg env role rest (ensure_online_backend cfg env bk role c).2.1

/-- Spec-side description of the candidate loop for claim C2 (amended): scan
the per-candidate results in order; a busy-classified error (status 503 with
gpu_busy occurring in the serialized body) moves on to the next candidate, a
success admits that candidate, any other error is surfaced unchanged, and
exhaustion yields the no-available-backend gpu_busy error. -/
def specTryResult (model : String) : List (String × EResult) → Option String × Option ErrResp
| [] => (none, some (noBackendErr model))
| (bk, r) :: rest =>
    match r with
    | none => (some bk, none)
    | some e => if busyRetryable e then specTryResult model rest else (none, some e)

/-!
Reaper (`ttl_for_backend` and the per-backend body of `ttl_sweeper`,
src/router/app.py lines 554-592) and the request handlers' shared-state
bookkeeping (`chat_completions`, lines 486-493) as a labelled transition
system over the mutable router state.
-/

/-- `ttl_for_backend` (src/router/app.py lines 554-559), in minutes. -/
def ttl_for_backend (cfg : Cfg) (bk : String) : Nat :=
  let meta := metaOf bk
  if meta.gpu == "1" && GPU1_GENERATORS.contains meta.model then cfg.gpu1TtlMin
  else cfg.globalTtlMin

/-- Mutable router state shared by the handlers and the sweeper
(src/router/app.py lines 169-172): the inflight table, last-used timestamps,
per-GPU sticky backends, and the multiset of handler sessions currently
inside their proxy call (modelled as a list of backend ids). -/
structure Sys where
  inflight : String → Int
  last_used : String → ℤ
  sticky : String → Option String
  active : List String

/-- The boot state: all counters zero, no sticky backends, no sessions. -/
def initSys : Sys :=
  { inflight := fun _ => 0, last_used := fun _ => 0, sticky := fun _ => none, active := [] }

/-- Pointwise integer bump of a table. -/
def bumpI (f : String → Int) (bk : String) (d : Int) : String → Int :=
  fun b => if b = bk then f b + d else f b

/-- Pointwise update of a timestamp table. -/
def updQ (f : String → ℤ) (bk : String) (v : ℤ) : String → ℤ :=
  fun b => if b = bk then v else f b

/-- Pointwise update of the sticky map. -/
def updS (f : String → Option String) (g : String) (v : Option String) :
    String → Option String :=
  fun g2 => if g2 = g then v else f g2

/-- Remove the first occurrence of a backend id from the session multiset. -/
def removeFirst (bk : String) : List String → List String
| [] => []
| b :: rest => if b = bk then rest else b :: removeFirst bk rest

/-- Occurrences of a backend id in the session multiset. -/
def countB (bk : String) : List String → Nat
| [] => 0
| b :: rest => (if b = bk then 1 else 0) + countB bk rest

/-- Steps of the handler bookkeeping (src/router/app.py lines 486-493).
`enter` is the increment of `inflight[bk]` at line 486, immediately before
the proxy call; `exitOk` is the successful-path epilogue (set `last_used` to
the current wall time, set the GPU's sticky backend, then run the finally
decrement), and `exitErr` is the finally decrement alone when the proxy
raised.  Wall-clock times are strictly positive. -/
inductive HStep : Sys → Sys → Prop
| enter (s : Sys) (bk : String) :
    HStep s { inflight := bumpI s.inflight bk 1, last_used := s.last_used,
              sticky := s.sticky, active := bk :: s.active }
| exitOk (s : Sys) (bk : String) (t : ℤ) (hmem : bk ∈ s.active) (ht : 0 < t) :
    HStep s { inflight := bumpI s.inflight bk (-1),
              last_used := updQ s.last_used bk t,
              sticky := updS s.sticky (metaOf bk).gpu (some bk),
              active := removeFirst bk s.active }
| exitErr (s : Sys) (bk : String) (hmem : bk ∈ s.active) :
    HStep s { inflight := bumpI s.inflight bk (-1), last_used := s.last_used,
              sticky := s.sticky, active := removeFirst bk s.active }

/-- States reachable from boot through handler steps. -/
def Reach (s : Sys) : Prop :=
  Relation.ReflTransGen HStep initSys s

/-- Events of one chat request handler (src/router/app.py lines 486-493). -/
inductive HEv
| inc (bk : String)
| proxyCall (bk : String)
| touch (bk : String) (t : ℤ)
| dec (bk : String)
deriving DecidableEq

/-- The event sequence of one `chat_completions` handler around its proxy
call, by outcome: increment, proxy, on success the last-used/sticky updates,
and in every case the finally-block decrement
(src/router/app.py lines 486-493). -/
def chatHandlerEvents (bk : String) (success : Bool) (t : ℤ) : List HEv :=
  if success then [HEv.inc bk, HEv.proxyCall bk, HEv.touch bk t, HEv.dec bk]
  else [HEv.inc bk, HEv.proxyCall bk, HEv.dec bk]

/-- The stop decision of one sweeper tick for one backend
(src/router/app.py lines 567-592): the backend's container state is
`running`, `now` is the tick's wall time; true means a stop is issued. -/
def sweepStops (cfg : Cfg) (running : Bool) (s : Sys) (now : ℤ) (bk : String) : Bool :=
  if !running then false
  else if cfg.keepLast && (s.sticky (metaOf bk).gpu == some bk)
      && decide (0 < s.last_used bk) then false
  else if decide (0 < s.inflight bk) then false
  else
    let last := s.last_used bk
    let idle : ℤ := if 0 < last then now - last else now
    let grace : ℤ := (cfg.graceIdleMin : ℤ) * 60
    if idle < grace then false
    else decide ((ttl_for_backend cfg bk : ℤ) * 60 ≤ idle)

/-!
Theorems.  Generic helper lemmas come first, then one theorem per claim
(with witnesses and counterexamples where required).
-/

theorem lookup_pair_mem {α β : Type} [BEq α] [LawfulBEq α] :
    ∀ (l : List (α × β)) (k : α) (v : β), l.lookup k = some v → (k, v) ∈ l := by
  intro l
  induction l with
  | nil => intro k v h; simp [List.lookup] at h
  | cons p rest ih =>
      intro k v h
      rcases p with ⟨a, b⟩
      cases hk : k == a with
      | true =>
          have hb : b = v := by simpa [List.lookup, hk] using h
          have ha : k = a := by simpa using hk
          subst hb; subst ha
          exact List.mem_cons_self _ _
      | false =>
          have h2 : rest.lookup k = some v := by simpa [List.lookup, hk] using h
          exact List.mem_cons_of_mem _ (ih k v h2)

theorem itemTokens_spec (item : Jv) (h : ItemOk item) :
    itemTokens item = Except.ok (specItemTokens item) := by
  cases item with
  | jo kvs =>
      by_cases ht : isTextTag ((kvs.lookup "type").getD Jv.null) = true
      · rcases hv : kvs.lookup "text" with _ | tv
        · simp [itemTokens, specItemTokens, ht, hv, estimate_tokens, pyLen, Except.map]
        · rcases h kvs rfl ht tv hv with ⟨s, rfl⟩
          simp [itemTokens, specItemTokens, ht, hv, estimate_tokens, pyLen, Except.map]
      · simp [itemTokens, specItemTokens, ht]
  | null => simp [itemTokens, specItemTokens]
  | jb b => simp [itemTokens, specItemTokens]
  | ji n => simp [itemTokens, specItemTokens]
  | js s => simp [itemTokens, specItemTokens]
  | ja xs => simp [itemTokens, specItemTokens]

theorem itemsTokens_spec (items : List Jv) (h : ∀ it ∈ items, ItemOk it) :
    itemsTokens items = Except.ok ((items.map specItemTokens).sum) := by
  induction items with
  | nil => simp [itemsTokens]
  | cons it rest ih =>
      have h1 := h it (List.mem_cons_self _ _)
      have h2 : ∀ x ∈ rest, ItemOk x := fun x hx => h x (List.mem_cons_of_mem _ hx)
      simp [itemsTokens, itemTokens_spec it h1, ih h2, Bind.bind, Except.bind]

theorem msgTokens_spec (msg : Jv) (h : MsgOk msg) :
    msgTokens msg = Except.ok (specMsgTokens msg) := by
  rcases h with ⟨kvs, rfl, hc⟩
  rcases hcv : (kvs.lookup "content").getD (Jv.js "") with _ | b | n | s | items | kvs2
  · simp [msgTokens, specMsgTokens, pyGet, hcv, Bind.bind, Except.bind]
  · simp [msgTokens, specMsgTokens, pyGet, hcv, Bind.bind, Except.bind]
  · simp [msgTokens, specMsgTokens, pyGet, hcv, Bind.bind, Except.bind]
  · simp [msgTokens, specMsgTokens, pyGet, hcv, Bind.bind, Except.bind]
  · have := itemsTokens_spec items (hc items hcv)
    simp [msgTokens, specMsgTokens, pyGet, hcv, this, Bind.bind, Except.bind]
  · simp [msgTokens, specMsgTokens, pyGet, hcv, Bind.bind, Except.bind]

theorem messagesTokens_spec (ms : List Jv) (h : ∀ m ∈ ms, MsgOk m) :
    messagesTokens ms = Except.ok ((ms.map specMsgTokens).sum) := by
  induction ms with
  | nil => simp [messagesTokens]
  | cons m rest ih =>
      have h1 := h m (List.mem_cons_self _ _)
      have h2 : ∀ x ∈ rest, MsgOk x := fun x hx => h x (List.mem_cons_of_mem _ hx)
      simp [messagesTokens, msgTokens_spec m h1, ih h2, Bind.bind, Except.bind]

theorem specItemTokens_nonneg (item : Jv) : 0 ≤ specItemTokens item := by
  cases item with
  | jo kvs =>
      simp only [specItemTokens]
      split
      · split
        · exact Int.ediv_nonneg (by positivity) (by norm_num)
        · exact le_refl 0
      · exact le_refl 0
  | null => simp [specItemTokens]
  | jb b => simp [specItemTokens]
  | ji n => simp [specItemTokens]
  | js s => simp [specItemTokens]
  | ja xs => simp [specItemTokens]

theorem specMsgTokens_nonneg (msg : Jv) : 0 ≤ specMsgTokens msg := by
  cases msg with
  | jo kvs =>
      simp only [specMsgTokens]
      split
      · exact Int.ediv_nonneg (by positivity) (by norm_num)
      · exact List.sum_nonneg (by
          intro x hx
          rcases List.mem_map.mp hx with ⟨it, _, rfl⟩
          exact specItemTokens_nonneg it)
      · exact le_refl 0
  | null => simp [specMsgTokens]
  | jb b => simp [specMsgTokens]
  | ji n => simp [specMsgTokens]
  | js s => simp [specMsgTokens]
  | ja xs => simp [specMsgTokens]

/-- C9 (counterexample).  The claim states that `estimate_request_tokens`
returns a non-negative integer and never raises on an arbitrary JSON chat
payload.  On the payload with max_tokens = -100 the code returns -100, and on
the payload whose messages field is the integer 0 the Python code raises a
TypeError while iterating. -/
theorem estimate_request_tokens_counterexample :
    estimate_request_tokens [("max_tokens", Jv.ji (-100))] = Except.ok (-100) ∧
    estimate_request_tokens [("messages", Jv.ji 0)] =
      Except.error "TypeError: object is not iterable" := by
  constructor <;> rfl

/-- C9 (amended).  For every JSON chat payload whose messages field, when
present, is a list of objects in which every text-tagged content part carries
a string text field, and whose max_tokens field, when present, is a
non-negative integer: the estimator returns without raising the non-negative
integer given by the claim's arithmetic — string message content contributes
len/4 rounded down, text parts of list content contribute len(text)/4
rounded down, malformed (non-string, non-list) content fields contribute 0,
and max_tokens (512 when absent) is added. -/
theorem estimate_request_tokens_wellshaped (payload : List (String × Jv))
    (h : PayloadOk payload) :
    estimate_request_tokens payload = Except.ok (specEstimate payload) ∧
      0 ≤ specEstimate payload := by
  rcases h with ⟨hmsg, hmax⟩
  have hmessages :
      ∃ ms, (payload.lookup "messages").getD (Jv.ja []) = Jv.ja ms ∧ ∀ m ∈ ms, MsgOk m := by
    rcases hv : payload.lookup "messages" with _ | v
    · exact ⟨[], by simp [hv], by simp⟩
    · rcases hmsg v hv with ⟨ms, rfl, hok⟩
      exact ⟨ms, by simp [hv], hok⟩
  rcases hmessages with ⟨ms, hms, hok⟩
  have hmt : ∃ n : Int, (payload.lookup "max_tokens").getD (Jv.ji 512) = Jv.ji n ∧ 0 ≤ n := by
    rcases hv : payload.lookup "max_tokens" with _ | v
    · exact ⟨512, by simp [hv], by norm_num⟩
    · rcases hmax v hv with ⟨n, rfl, hn⟩
      exact ⟨n, by simp [hv], hn⟩
  rcases hmt with ⟨n, hmtv, hn⟩
  have hsum : 0 ≤ (ms.map specMsgTokens).sum :=
    List.sum_nonneg (by
      intro x hx
      rcases List.mem_map.mp hx with ⟨m, _, rfl⟩
      exact specMsgTokens_nonneg m)
  constructor
  · simp [estimate_request_tokens, specEstimate, hms, hmtv, pyIter,
      messagesTokens_spec ms hok, addMaxTokens, Bind.bind, Except.bind]
  · simp only [specEstimate, hms, hmtv]
    exact add_nonneg hsum hn

/-- C9 (witness for the amended theorem): the empty payload is well shaped
and evaluates to 512. -/
theorem estimate_request_tokens_wellshaped_witness :
    estimate_request_tokens [] = Except.ok (specEstimate []) ∧ 0 ≤ specEstimate [] :=
  estimate_request_tokens_wellshaped []
    ⟨by intro v hv; simp [List.lookup] at hv, by intro v hv; simp [List.lookup] at hv⟩

theorem metaOf_eq_of_lookup {sb : String} {m : Meta} (h : BACKENDS.lookup sb = some m) :
    metaOf sb = m := by
  simp [metaOf, h]

theorem mem_model_backends {sb : String} {m : Meta} {model : String}
    (h : BACKENDS.lookup sb = some m) (hm : m.model = model) :
    sb ∈ model_backends model := by
  have hmem := lookup_pair_mem BACKENDS sb m h
  unfold model_backends
  exact List.mem_map.mpr ⟨(sb, m), List.mem_filter.mpr ⟨hmem, by simp [hm]⟩, rfl⟩

theorem isEmpty_false_of_mem {α : Type} {l : List α} {a : α} (h : a ∈ l) :
    l.isEmpty = false := by
  cases l with
  | nil => cases h
  | cons x xs => rfl

theorem stickyScanLoop_hit (cfg : Cfg) (sel : SelSt) (model : String) (est : Option Int)
    (g : String) (gs : List String) (sb : String)
    (hsb : sel.sticky g = some sb) (hspec : stickyMatchesSpec cfg model est sb) :
    stickyScanLoop cfg sel model est (g :: gs) = some sb := by
  rcases hspec with ⟨hm, hcond⟩
  rcases hcond with hA | ⟨e, rfl, hc⟩
  · cases est with
    | none => simp [stickyScanLoop, hsb, hm]
    | some e => simp [stickyScanLoop, hsb, hm, hA]
  · by_cases had : cfg.adaptive = true
    · rcases hc with ⟨hlt, hstrat⟩ | ⟨hnlt, hstrat⟩
      · simp [stickyScanLoop, hsb, hm, had, hstrat, hlt]
      · simp [stickyScanLoop, hsb, hm, had, hstrat, hnlt]
    · simp [stickyScanLoop, hsb, hm, had]

/-- C7.  Scanning GPUs in the fixed order 0 then 1, if a GPU's sticky backend
serves the requested model and either adaptive routing is disabled or the
sticky backend's strategy matches the inferred need (long iff the estimate
strictly exceeds the threshold, throughput otherwise), `choose_backend`
returns that sticky backend. -/
theorem choose_backend_sticky_first (cfg : Cfg) (sel : SelSt) (model : String)
    (est : Option Int) (role : Option String) (sb : String) (m : Meta)
    (hreg : BACKENDS.lookup sb = some m) :
    (sel.sticky "0" = some sb → stickyMatchesSpec cfg model est sb →
      choose_backend cfg sel model est role = some sb) ∧
    ((∀ sb0, sel.sticky "0" = some sb0 → ¬ stickyMatchesSpec cfg model est sb0) →
      sel.sticky "1" = some sb → stickyMatchesSpec cfg model est sb →
      choose_backend cfg sel model est role = some sb) := by
  constructor
  · intro h0 hspec
    have hne : (model_backends model).isEmpty = false :=
      isEmpty_false_of_mem (mem_model_backends hreg ((metaOf_eq_of_lookup hreg) ▸ hspec.1))
    have hs := stickyScanLoop_hit cfg sel model est "0" ["1"] sb h0 hspec
    simp [choose_backend, hne, hs]
  · intro hnot0 h1 hspec
    have hne : (model_backends model).isEmpty = false :=
      isEmpty_false_of_mem (mem_model_backends hreg ((metaOf_eq_of_lookup hreg) ▸ hspec.1))
    have hs1 := stickyScanLoop_hit cfg sel model est "1" [] sb h1 hspec
    have hscan : stickyScanLoop cfg sel model est ["0", "1"] = some sb := by
      cases h0 : sel.sticky "0" with
      | none => simpa [stickyScanLoop, h0] using hs1
      | some sb0 =>
          have hns := hnot0 sb0 h0
          by_cases hserves : (metaOf sb0).model = model
          · cases est with
            | none =>
                rcases hspec.2 with hA | ⟨e, he, _⟩
                · exact absurd ⟨hserves, Or.inl hA⟩ hns
                · cases he
            | some e =>
                by_cases had : cfg.adaptive = true
                · by_cases hcnd :
                    cfg.threshold < e ∧ (metaOf sb0).strategy = "long" ∨
                      e ≤ cfg.threshold ∧ (metaOf sb0).strategy = "throughput"
                  · exfalso
                    apply hns
                    refine ⟨hserves, Or.inr ⟨e, rfl, ?_⟩⟩
                    rcases hcnd with ⟨hlt, hst⟩ | ⟨hle, hst⟩
                    · exact Or.inl ⟨hlt, hst⟩
                    · exact Or.inr ⟨not_lt.mpr hle, hst⟩
                  · simpa [stickyScanLoop, h0, hserves, had, hcnd] using hs1
                · exfalso
                  apply hns
                  have : cfg.adaptive = false := by
                    cases hA : cfg.adaptive
                    · rfl
                    · exact absurd hA had
                  exact ⟨hserves, Or.inl this⟩
          · simpa [stickyScanLoop, h0, hserves] using hs1
    simp [choose_backend, hne, hscan]

/-- C7 (witness): with the default configuration, a sticky long backend on
GPU 0 serving the model, and an estimate above the threshold, the selector
returns the sticky backend. -/
theorem choose_backend_sticky_first_witness :
    choose_backend defaultCfg
      ⟨fun g => if g = "0" then some "llama31-8b-instruct@0" else none⟩
      "llama31-8b-instruct" (some 5000) none = some "llama31-8b-instruct@0" := by
  refine (choose_backend_sticky_first defaultCfg
      ⟨fun g => if g = "0" then some "llama31-8b-instruct@0" else none⟩
      "llama31-8b-instruct" (some 5000) none "llama31-8b-instruct@0"
      ⟨"llama31-8b-instruct", "chat", "0", "long", "http://llama_0:8000/v1", "llama_0"⟩
      (by decide)).1 (by simp) ?_
  exact ⟨by decide, Or.inr ⟨5000, rfl, Or.inl ⟨by decide, by decide⟩⟩⟩

/-- C8.  When adaptive routing is enabled, an estimate is provided and the
sticky scan returned nothing: an estimate exactly equal to the threshold
selects the model's first registered backend whose strategy is throughput,
and an estimate strictly greater selects the first whose strategy is long. -/
theorem choose_backend_adaptive_boundary (cfg : Cfg) (sel : SelSt) (model : String)
    (role : Option String) (e : Int) (bk : String)
    (had : cfg.adaptive = true)
    (hscan : stickyScanLoop cfg sel model (some e) ["0", "1"] = none) :
    (e = cfg.threshold →
      (model_backends model).find? (fun b => (metaOf b).strategy == "throughput") = some bk →
      choose_backend cfg sel model (some e) role = some bk) ∧
    (cfg.threshold < e →
      (model_backends model).find? (fun b => (metaOf b).strategy == "long") = some bk →
      choose_backend cfg sel model (some e) role = some bk) := by
  constructor
  · intro heq hfind
    have hne : (model_backends model).isEmpty = false :=
      isEmpty_false_of_mem (List.mem_of_find?_eq_some hfind)
    have hnlt : ¬ cfg.threshold < e := by rw [heq]; exact lt_irrefl _
    simp [choose_backend, hne, hscan, had, hnlt, hfind]
  · intro hlt hfind
    have hne : (model_backends model).isEmpty = false :=
      isEmpty_false_of_mem (List.mem_of_find?_eq_some hfind)
    simp [choose_backend, hne, hscan, had, hlt, hfind]

/-- C8 (witness): with no sticky state, an estimate equal to the default
threshold picks the throughput backend of the model. -/
theorem choose_backend_adaptive_boundary_witness :
    choose_backend defaultCfg ⟨fun _ => none⟩ "llama31-8b-instruct" (some 4096) none =
      some "llama31-8b-instruct@1" :=
  (choose_backend_adaptive_boundary defaultCfg ⟨fun _ => none⟩ "llama31-8b-instruct"
      none 4096 "llama31-8b-instruct@1" rfl (by rfl)).1 rfl (by rfl)

theorem countB_removeFirst (b bk : String) :
    ∀ l : List String, bk ∈ l →
      (countB b (removeFirst bk l) : Int) =
        (countB b l : Int) - (if b = bk then 1 else 0) := by
  intro l
  induction l with
  | nil => intro h; cases h
  | cons a rest ih =>
      intro h
      by_cases hab : a = bk
      · subst hab
        simp only [removeFirst, if_pos rfl, countB]
        by_cases hba : b = a
        · subst hba; simp
        · have : (if a = b then 1 else 0) = 0 := by
            rw [if_neg (fun hh => hba hh.symm)]
          simp [this, if_neg hba]
      · have hmem : bk ∈ rest := by
          rcases List.mem_cons.mp h with h1 | h1
          · exact absurd h1.symm hab
          · exact h1
        simp only [removeFirst, if_neg hab, countB]
        rw [Nat.cast_add, Nat.cast_add, ih hmem]
        ring

theorem mem_of_countB_pos {bk : String} :
    ∀ {l : List String}, bk ∈ l → 1 ≤ countB bk l := by
  intro l
  induction l with
  | nil => intro h; cases h
  | cons a rest ih =>
      intro h
      rcases List.mem_cons.mp h with h1 | h1
      · subst h1; simp [countB]
      · have := ih h1
        simp only [countB]
        omega

/-- Invariant of the handler transition system: the inflight table counts the
sessions currently inside their proxy call, and a sticky backend always has a
positive last-used time. -/
def SysInv (s : Sys) : Prop :=
  (∀ bk, s.inflight bk = (countB bk s.active : Int)) ∧
  (∀ g bk, s.sticky g = some bk → 0 < s.last_used bk)

theorem sysInv_init : SysInv initSys := by
  constructor
  · intro bk; simp [initSys, countB]
  · intro g bk h; simp [initSys] at h

theorem sysInv_step {s s' : Sys} (hstep : HStep s s') (hinv : SysInv s) : SysInv s' := by
  rcases hinv with ⟨hcount, hsticky⟩
  cases hstep with
  | enter bk =>
      constructor
      · intro b
        simp only [bumpI, countB]
        by_cases hb : b = bk
        · subst hb; simp [hcount b]; omega
        · have : (if bk = b then 1 else 0) = 0 := by
            rw [if_neg (fun hh => hb hh.symm)]
          simp [if_neg hb, hcount b, this]
      · intro g b h
        exact hsticky g b h
  | exitOk bk t hmem ht =>
      constructor
      · intro b
        simp only [bumpI]
        rw [countB_removeFirst b bk s.active hmem]
        by_cases hb : b = bk
        · subst hb; simp [hcount b]; omega
        · simp [if_neg hb, hcount b]
      · intro g b h
        simp only [updS] at h
        by_cases hg : g = (metaOf bk).gpu
        · rw [if_pos hg] at h
          injection h with h2
          subst h2
          simp [updQ, ht]
        · rw [if_neg hg] at h
          have := hsticky g b h
          simp only [updQ]
          by_cases hb : b = bk
          · subst hb; simp [ht]
          · simpa [if_neg hb] using this
  | exitErr bk hmem =>
      constructor
      · intro b
        simp only [bumpI]
        rw [countB_removeFirst b bk s.active hmem]
        by_cases hb : b = bk
        · subst hb; simp [hcount b]; omega
        · simp [if_neg hb, hcount b]
      · intro g b h
        exact hsticky g b h

theorem sysInv_reach {s : Sys} (h : Reach s) : SysInv s := by
  induction h with
  | refl => exact sysInv_init
  | tail _ hstep ih => exact sysInv_step hstep ih

/-- C4.  In every reachable router state, every backend's inflight count is
non-negative; and the chat handler's event sequence increments inflight
strictly before the proxy call and decrements it strictly after, on every
outcome (src/router/app.py lines 486-493). -/
theorem inflight_nonneg_and_handler_order :
    (∀ s, Reach s → ∀ bk, 0 ≤ s.inflight bk) ∧
    (∀ (bk : String) (success : Bool) (t : ℤ),
      (chatHandlerEvents bk success t).head? = some (HEv.inc bk) ∧
      (chatHandlerEvents bk success t).getLast? = some (HEv.dec bk) ∧
      HEv.proxyCall bk ∈ (chatHandlerEvents bk success t).tail ∧
      HEv.dec bk ∉ (chatHandlerEvents bk success t).dropLast) := by
  constructor
  · intro s hs bk
    have h := (sysInv_reach hs).1 bk
    rw [h]
    exact Int.natCast_nonneg _
  · intro bk success t
    cases success <;> simp [chatHandlerEvents]

/-- C4 (witness): the boot state is reachable and has non-negative inflight
for a concrete backend. -/
theorem inflight_nonneg_and_handler_order_witness :
    0 ≤ initSys.inflight "llama31-8b-instruct@0" :=
  inflight_nonneg_and_handler_order.1 initSys Relation.ReflTransGen.refl
    "llama31-8b-instruct@0"

/-- C5.  In every reachable router state, a sweeper tick that decides to stop
a backend does so only when its inflight count is not positive, and, when the
keep-last flag is on, never when the backend is its GPU's current sticky
backend. -/
theorem sweeper_respects_inflight_and_sticky (cfg : Cfg) (s : Sys) (now : ℤ)
    (bk : String) (running : Bool) (hreach : Reach s)
    (hstop : sweepStops cfg running s now bk = true) :
    ¬ 0 < s.inflight bk ∧
      (cfg.keepLast = true → s.sticky (metaOf bk).gpu ≠ some bk) := by
  have hinv := sysInv_reach hreach
  simp only [sweepStops] at hstop
  by_cases hrun : running = true
  · rw [hrun] at hstop
    simp only [Bool.not_true] at hstop
    rw [if_neg (by simp)] at hstop
    by_cases hskip : (cfg.keepLast && (s.sticky (metaOf bk).gpu == some bk)
        && decide (0 < s.last_used bk)) = true
    · rw [if_pos hskip] at hstop; cases hstop
    · rw [if_neg hskip] at hstop
      by_cases hin : decide (0 < s.inflight bk) = true
      · rw [if_pos hin] at hstop; cases hstop
      · constructor
        · intro hpos
          exact hin (decide_eq_true hpos)
        · intro hkeep hsb
          apply hskip
          have hlast := hinv.2 (metaOf bk).gpu bk hsb
          simp [hkeep, hsb, hlast]
  · have : running = false := by
      cases running
      · rfl
      · exact absurd rfl hrun
    rw [this] at hstop
    simp at hstop

/-- C5 (witness): at boot, a never-used running backend is reaped after a
long idle period, and the conclusions hold there. -/
theorem sweeper_respects_inflight_and_sticky_witness :
    ¬ 0 < initSys.inflight "llama31-8b-instruct@0" ∧
      (defaultCfg.keepLast = true →
        initSys.sticky (metaOf "llama31-8b-instruct@0").gpu ≠
          some "llama31-8b-instruct@0") :=
  sweeper_respects_inflight_and_sticky defaultCfg initSys 100000
    "llama31-8b-instruct@0" true Relation.ReflTransGen.refl (by decide)

/-- C6.  On a sweeper tick, a running backend not skipped by the sticky or
inflight checks is stopped iff its idle time (now minus last_used when ever
used, else now) is at least the grace period and at least its TTL; and the
TTL is the GPU1-chat TTL exactly for chat backends on GPU 1, the global TTL
for every other backend. -/
theorem sweeper_stop_iff_idle_ttl (cfg : Cfg) (s : Sys) (now : ℤ) (bk : String)
    (hskip1 : (cfg.keepLast && (s.sticky (metaOf bk).gpu == some bk)
        && decide (0 < s.last_used bk)) = false)
    (hskip2 : ¬ 0 < s.inflight bk) :
    (sweepStops cfg true s now bk = true ↔
      ((cfg.graceIdleMin : ℤ) * 60 ≤
          (if 0 < s.last_used bk then now - s.last_used bk else now) ∧
        (ttl_for_backend cfg bk : ℤ) * 60 ≤
          (if 0 < s.last_used bk then now - s.last_used bk else now))) ∧
    ttl_for_backend cfg bk =
      (if (metaOf bk).kind = "chat" ∧ (metaOf bk).gpu = "1" then cfg.gpu1TtlMin
       else cfg.globalTtlMin) := by
  constructor
  · have hin : decide (0 < s.inflight bk) = false := decide_eq_false hskip2
    simp only [sweepStops, Bool.not_true, hskip1, hin]
    by_cases hig : (if 0 < s.last_used bk then now - s.last_used bk else now) <
        (cfg.graceIdleMin : ℤ) * 60
    · simp only [if_pos hig]
      constructor
      · intro h; cases h
      · intro h
        exact absurd h.1 (not_le.mpr hig)
    · simp only [if_neg hig]
      constructor
      · intro h
        exact ⟨not_lt.mp hig, of_decide_eq_true h⟩
      · intro h
        exact decide_eq_true h.2
  · cases hlk : BACKENDS.lookup bk with
    | none =>
        simp [ttl_for_backend, metaOf, hlk, GPU1_GENERATORS]
    | some m =>
        have hmem : m ∈ BACKENDS.map Prod.snd :=
          List.mem_map_of_mem _ (lookup_pair_mem BACKENDS bk m hlk)
        have hmeq : metaOf bk = m := metaOf_eq_of_lookup hlk
        simp only [ttl_for_backend, hmeq]
        simp only [BACKENDS, List.map, List.mem_cons, List.not_mem_nil, or_false] at hmem
        rcases hmem with rfl | rfl | rfl | rfl | rfl | rfl | rfl | rfl | rfl | rfl <;>
          simp [GPU1_GENERATORS]

/-- C6 (witness): a never-used running GPU0 chat backend at boot state is
stopped at a late tick, matching the idle and TTL characterization. -/
theorem sweeper_stop_iff_idle_ttl_witness :
    (sweepStops defaultCfg true initSys 100000 "llama31-8b-instruct@0" = true ↔
      ((defaultCfg.graceIdleMin : ℤ) * 60 ≤
          (if 0 < initSys.last_used "llama31-8b-instruct@0" then
            100000 - initSys.last_used "llama31-8b-instruct@0" else 100000) ∧
        (ttl_for_backend defaultCfg "llama31-8b-instruct@0" : ℤ) * 60 ≤
          (if 0 < initSys.last_used "llama31-8b-instruct@0" then
            100000 - initSys.last_used "llama31-8b-instruct@0" else 100000))) ∧
    ttl_for_backend defaultCfg "llama31-8b-instruct@0" =
      (if (metaOf "llama31-8b-instruct@0").kind = "chat" ∧
          (metaOf "llama31-8b-instruct@0").gpu = "1" then defaultCfg.gpu1TtlMin
       else defaultCfg.globalTtlMin) :=
  sweeper_stop_iff_idle_ttl defaultCfg initSys 100000 "llama31-8b-instruct@0"
    (by decide) (by decide)

theorem M_bind_apply {α β : Type} (m : M α) (f : α → M β) (c : Cnt) :
    (m >>= f) c = ((f (m c).1 (m c).2.1).1, (f (m c).1 (m c).2.1).2.1,
      (m c).2.2 ++ (f (m c).1 (m c).2.1).2.2) := rfl

theorem M_pure_apply {α : Type} (a : α) (c : Cnt) : (pure a : M α) c = (a, c, []) := rfl

/-- C10.  When the container is already reported running at the controller's
initial state check (and the cap admits), the whole invocation consists of
exactly that status query and one health probe: admission is granted iff the
probe succeeds, no lock is acquired, no one-heavy scan runs, and no container
start or stop is issued — whatever the rest of the environment (in
particular, other chat backends may be running on the same GPU). -/
theorem ensure_fast_path_frame (cfg : Cfg) (env : Env) (bk role : String) (meta : Meta)
    (hmeta : BACKENDS.lookup bk = some meta)
    (hcap : modelInflight env meta.model < capFor meta.model)
    (hst : env.contStatus 0 meta.container = ⟨true, true⟩) :
    ensure_online_backend cfg env bk role ⟨0, 0, 0⟩ =
      ((if env.healthy 0 = true then none else some (unhealthyErr meta.model)),
        ⟨1, 1, 0⟩, [Act.queryStatus meta.container, Act.probeHealth bk]) := by
  have hm := metaOf_eq_of_lookup hmeta
  simp only [ensure_online_backend, hm]
  rw [if_neg (not_le.mpr hcap)]
  cases hh : env.healthy 0 <;>
    simp [M_bind_apply, M_pure_apply, containerStatusA, hst, fastProbe, waitHealthyA, hh]

/-- C10 (witness): concrete environment in which the target container is
running and healthy while another chat backend is running on the same GPU. -/
theorem ensure_fast_path_frame_witness :
    ensure_online_backend defaultCfg
      { inflight := fun _ => 0,
        contStatus := fun _ n => if n = "llama_0" || n = "r1_0" then ⟨true, true⟩
          else ⟨true, false⟩,
        healthy := fun _ => true, startOk := fun _ => true, tbText := fun _ => "" }
      "llama31-8b-instruct@0" "webui" ⟨0, 0, 0⟩ =
      (none, ⟨1, 1, 0⟩, [Act.queryStatus "llama_0", Act.probeHealth "llama31-8b-instruct@0"]) := by
  have h := ensure_fast_path_frame defaultCfg
    { inflight := fun _ => 0,
      contStatus := fun _ n => if n = "llama_0" || n = "r1_0" then ⟨true, true⟩
        else ⟨true, false⟩,
      healthy := fun _ => true, startOk := fun _ => true, tbText := fun _ => "" }
    "llama31-8b-instruct@0" "webui"
    ⟨"llama31-8b-instruct", "chat", "0", "long", "http://llama_0:8000/v1", "llama_0"⟩
    (by decide) (by decide) (by decide)
  simpa using h

theorem withLockA_val {α : Type} (a r : Act) (m : M α) (c : Cnt) :
    (withLockA a r m c).1 = (m c).1 := rfl

theorem withLockA_cnt {α : Type} (a r : Act) (m : M α) (c : Cnt) :
    (withLockA a r m c).2.1 = (m c).2.1 := rfl

theorem fastProbe_val (env : Env) (bk model : String) (c : Cnt) :
    (fastProbe env bk model c).1 = none ∨
      (fastProbe env bk model c).1 = some (unhealthyErr model) := by
  cases hh : env.healthy c.h with
  | true => left; simp [fastProbe, M_bind_apply, M_pure_apply, waitHealthyA, hh]
  | false => right; simp [fastProbe, M_bind_apply, M_pure_apply, waitHealthyA, hh]

theorem startLoop_val (cfg : Cfg) (env : Env) (bk : String) (meta : Meta) :
    ∀ (n : Nat) (le : Option String) (c : Cnt),
      (startLoop cfg env bk meta n le c).1 = none ∨
        ∃ le2, (startLoop cfg env bk meta n le c).1 =
          some (startFailedErr cfg.maxRetries le2) := by
  intro n
  induction n with
  | zero => intro le c; right; exact ⟨le, rfl⟩
  | succ k ih =>
      intro le c
      by_cases hs : env.startOk c.s = true
      · by_cases hh : env.healthy c.h = true
        · left
          simp [startLoop, M_bind_apply, M_pure_apply, startContainerA, hs,
            waitHealthyA, hh]
        · have h2 := ih le ⟨c.q, c.h + 1, c.s + 1⟩
          simpa [startLoop, M_bind_apply, M_pure_apply, startContainerA, hs,
            waitHealthyA, hh, stopContainerA, emitA] using h2
      · have h2 := ih (some (env.tbText c.s)) ⟨c.q, c.h, c.s + 1⟩
        simpa [startLoop, M_bind_apply, M_pure_apply, startContainerA, hs,
          emitA] using h2

theorem gpuPolicy_val (cfg : Cfg) (env : Env) (bk : String) (meta : Meta)
    (role : String) (c : Cnt) :
    (gpuPolicy cfg env bk meta role c).1 = none ∨
      ∃ e, (gpuPolicy cfg env bk meta role c).1 = some e ∧
        e.status = 503 ∧ e.typ = "gpu_busy" := by
  by_cases hoh : (cfg.oneHeavy && (meta.kind == "chat")) = true
  · cases hb : (running_heavy_backend_on_gpu env meta.gpu (some bk) c).1 with
    | none =>
        left
        simp [gpuPolicy, hoh, M_bind_apply, M_pure_apply, hb]
    | some busy =>
        by_cases h1 : (role == "webui" && cfg.webuiFailFast) = true
        · right
          refine ⟨gpuBusyWebuiErr meta.gpu (metaOf busy).model, ?_, rfl, rfl⟩
          simp [gpuPolicy, hoh, M_bind_apply, M_pure_apply, hb, h1]
        · by_cases h2 : (role == "n8n" && (meta.gpu == "1") && cfg.preemptGpu1) = true
          · left
            simp [gpuPolicy, hoh, M_bind_apply, M_pure_apply, hb, h1, h2,
              stopContainerA, emitA]
          · right
            refine ⟨gpuBusyErr meta.gpu (metaOf busy).model, ?_, rfl, rfl⟩
            simp [gpuPolicy, hoh, M_bind_apply, M_pure_apply, hb, h1, h2]
  · left; simp [gpuPolicy, hoh, M_pure_apply]

theorem startSection_val (cfg : Cfg) (env : Env) (bk : String) (meta : Meta)
    (role : String) (c : Cnt) :
    (startSection cfg env bk meta role c).1 = none ∨
      ∃ e, (startSection cfg env bk meta role c).1 = some e ∧
        e.status = 503 ∧ (e.typ = "gpu_busy" ∨ e.typ = "start_failed") := by
  rcases gpuPolicy_val cfg env bk meta role c with hp | ⟨e, hp, hs, ht⟩
  · have hloop := startLoop_val cfg env bk meta cfg.maxRetries none
    by_cases hd : (cfg.stopEmbed = true ∧ meta.gpu = "1") ∧ meta.model ∈ GPU1_GENERATORS
    · rcases hloop ((stop_gpu1_embed_rank env) (gpuPolicy cfg env bk meta role c).2.1).2.1
        with h | ⟨le2, h⟩
      · left
        simp [startSection, M_bind_apply, M_pure_apply, hp, hd, h]
      · right
        exact ⟨startFailedErr cfg.maxRetries le2,
          by simp [startSection, M_bind_apply, M_pure_apply, hp, hd, h],
          rfl, Or.inr rfl⟩
    · rcases hloop (gpuPolicy cfg env bk meta role c).2.1 with h | ⟨le2, h⟩
      · left
        simp [startSection, M_bind_apply, M_pure_apply, hp, hd, h]
      · right
        exact ⟨startFailedErr cfg.maxRetries le2,
          by simp [startSection, M_bind_apply, M_pure_apply, hp, hd, h],
          rfl, Or.inr rfl⟩
  · right
    exact ⟨e, by simp [startSection, M_bind_apply, M_pure_apply, hp],
      hs, Or.inl ht⟩

theorem ensure_not_rate_limited (cfg : Cfg) (env : Env) (bk role : String) (c : Cnt)
    (hcap : ¬ capFor (metaOf bk).model ≤ modelInflight env (metaOf bk).model) :
    ∀ m, (ensure_online_backend cfg env bk role c).1 ≠
      some ⟨429, m, "rate_limited"⟩ := by
  intro m
  simp only [ensure_online_backend]
  rw [if_neg hcap]
  cases hex : (env.contStatus c.q (metaOf bk).container).ex with
  | false =>
      simp [M_bind_apply, M_pure_apply, containerStatusA, hex, containerMissingErr]
  | true =>
      cases hrun : (env.contStatus c.q (metaOf bk).container).running with
      | true =>
          rcases fastProbe_val env bk (metaOf bk).model
              ⟨c.q + 1, c.h, c.s⟩ with h | h <;>
            simp [M_bind_apply, M_pure_apply, containerStatusA, hex, hrun, h,
              unhealthyErr]
      | false =>
          cases hrun2 : (env.contStatus (c.q + 1) (metaOf bk).container).running with
          | true =>
              rcases fastProbe_val env bk (metaOf bk).model
                  ⟨c.q + 2, c.h, c.s⟩ with h | h <;>
                simp [M_bind_apply, M_pure_apply, containerStatusA, hex, hrun,
                  hrun2, withLockA, emitA, h, unhealthyErr]
          | false =>
              rcases startSection_val cfg env bk (metaOf bk) role
                  ⟨c.q + 2, c.h, c.s⟩ with h | ⟨e, h, hs, ht⟩
              · simp [M_bind_apply, M_pure_apply, containerStatusA, hex, hrun,
                  hrun2, withLockA, emitA, h]
              · have hne : e ≠ ⟨429, m, "rate_limited"⟩ := by
                  intro he
                  rw [he] at hs
                  cases hs
                simp [M_bind_apply, M_pure_apply, containerStatusA, hex, hrun,
                  hrun2, withLockA, emitA, h, hne]

/-- C3.  A controller invocation results in the rate-limited (HTTP 429) error
iff, at decision time, the sum of inflight over all backends serving the
target model meets or exceeds the model's cap; and when it does, the
invocation performs nothing else: no status query, no health probe, and no
container start or stop. -/
theorem ensure_rate_limited_iff_cap (cfg : Cfg) (env : Env) (bk role : String) :
    ((∃ m, (ensure_online_backend cfg env bk role ⟨0, 0, 0⟩).1 =
        some ⟨429, m, "rate_limited"⟩) ↔
      capFor (metaOf bk).model ≤ modelInflight env (metaOf bk).model) ∧
    (capFor (metaOf bk).model ≤ modelInflight env (metaOf bk).model →
      ensure_online_backend cfg env bk role ⟨0, 0, 0⟩ =
        (some (rateLimitedErr (metaOf bk).model
            (modelInflight env (metaOf bk).model) (capFor (metaOf bk).model)),
          ⟨0, 0, 0⟩, [])) := by
  constructor
  · constructor
    · intro ⟨m, hm⟩
      by_contra hcap
      exact ensure_not_rate_limited cfg env bk role ⟨0, 0, 0⟩ hcap m hm
    · intro hcap
      refine ⟨(rateLimitedErr (metaOf bk).model
          (modelInflight env (metaOf bk).model) (capFor (metaOf bk).model)).msg, ?_⟩
      simp [ensure_online_backend, if_pos hcap, M_pure_apply, rateLimitedErr]
  · intro hcap
    simp [ensure_online_backend, if_pos hcap, M_pure_apply]

/-- C3 (witness): a saturated inflight table yields the rate-limited error
with an empty action trace. -/
theorem ensure_rate_limited_iff_cap_witness :
    ((∃ m, (ensure_online_backend defaultCfg
        { inflight := fun _ => 100, contStatus := fun _ _ => ⟨true, false⟩,
          healthy := fun _ => true, startOk := fun _ => true, tbText := fun _ => "" }
        "llama31-8b-instruct@0" "webui" ⟨0, 0, 0⟩).1 =
        some ⟨429, m, "rate_limited"⟩) ↔
      capFor (metaOf "llama31-8b-instruct@0").model ≤
        modelInflight
          { inflight := fun _ => 100, contStatus := fun _ _ => ⟨true, false⟩,
            healthy := fun _ => true, startOk := fun _ => true, tbText := fun _ => "" }
          (metaOf "llama31-8b-instruct@0").model) ∧ (8 : Nat) ≤ 200 :=
  ⟨(ensure_rate_limited_iff_cap defaultCfg
      { inflight := fun _ => 100, contStatus := fun _ _ => ⟨true, false⟩,
        healthy := fun _ => true, startOk := fun _ => true, tbText := fun _ => "" }
      "llama31-8b-instruct@0" "webui").1, by norm_num⟩

theorem scanHeavy_trace (env : Env) (gpu : String) (ex : Option String) :
    ∀ (l : List (String × Meta)) (c : Cnt) (a : Act),
      a ∈ (scanHeavy env gpu ex l c).2.2 → ∃ n, a = Act.queryStatus n := by
  intro l
  induction l with
  | nil => intro c a h; simp [scanHeavy, M_pure_apply] at h
  | cons p rest ih =>
      intro c a h
      rcases p with ⟨b, m⟩
      simp only [scanHeavy] at h
      split at h
      · exact ih _ _ h
      · split at h
        · exact ih _ _ h
        · split at h
          · exact ih _ _ h
          · simp only [M_bind_apply, containerStatusA, M_pure_apply] at h
            rw [List.mem_append] at h
            rcases h with h | h
            · exact ⟨m.container, by simpa using h⟩
            · split at h
              · simp [M_pure_apply] at h
              · exact ih _ _ h

theorem startLoop_start_mem (cfg : Cfg) (env : Env) (bk : String) (meta : Meta)
    (k : Nat) (le : Option String) (c : Cnt) :
    Act.startC meta.container ∈ (startLoop cfg env bk meta (k + 1) le c).2.2 := by
  by_cases hs : env.startOk c.s = true
  · by_cases hh : env.healthy c.h = true <;>
      simp [startLoop, M_bind_apply, M_pure_apply, startContainerA, hs,
        waitHealthyA, hh, stopContainerA, emitA]
  · simp [startLoop, M_bind_apply, startContainerA, hs, emitA]

/-- C1.  On the start path of a chat backend with the one-heavy-per-GPU flag
on and another chat backend found running on the same GPU: an interactive
(webui) caller with the fail-fast flag on gets the gpu_busy error with no
container stop issued; an automation (n8n) caller on GPU 1 with the preempt
flag on has the incumbent's container stopped and the startup continue (a
container start is attempted); in every other case the result is the
gpu_busy error with no stop issued. -/
theorem ensure_one_heavy_policy (cfg : Cfg) (env : Env) (bk busy_bk role : String)
    (meta : Meta)
    (hmeta : BACKENDS.lookup bk = some meta)
    (hcap : modelInflight env meta.model < capFor meta.model)
    (hkind : meta.kind = "chat") (hoh : cfg.oneHeavy = true)
    (hst1 : env.contStatus 0 meta.container = ⟨true, false⟩)
    (hst2 : (env.contStatus 1 meta.container).running = false)
    (hscan : (running_heavy_backend_on_gpu env meta.gpu (some bk) ⟨2, 0, 0⟩).1 =
      some busy_bk)
    (hfuel : 1 ≤ cfg.maxRetries) :
    (role = "webui" ∧ cfg.webuiFailFast = true →
      (ensure_online_backend cfg env bk role ⟨0, 0, 0⟩).1 =
          some (gpuBusyWebuiErr meta.gpu (metaOf busy_bk).model) ∧
        ∀ nm, Act.stopC nm ∉ (ensure_online_backend cfg env bk role ⟨0, 0, 0⟩).2.2) ∧
    (role = "n8n" ∧ meta.gpu = "1" ∧ cfg.preemptGpu1 = true →
      Act.stopC (metaOf busy_bk).container ∈
          (ensure_online_backend cfg env bk role ⟨0, 0, 0⟩).2.2 ∧
        Act.startC meta.container ∈
          (ensure_online_backend cfg env bk role ⟨0, 0, 0⟩).2.2) ∧
    (¬ (role = "webui" ∧ cfg.webuiFailFast = true) →
      ¬ (role = "n8n" ∧ meta.gpu = "1" ∧ cfg.preemptGpu1 = true) →
      (ensure_online_backend cfg env bk role ⟨0, 0, 0⟩).1 =
          some (gpuBusyErr meta.gpu (metaOf busy_bk).model) ∧
        ∀ nm, Act.stopC nm ∉ (ensure_online_backend cfg env bk role ⟨0, 0, 0⟩).2.2) := by
  have hm := metaOf_eq_of_lookup hmeta
  have hcapn : ¬ capFor meta.model ≤ modelInflight env meta.model := not_le.mpr hcap
  have hmemS : ∀ a ∈ (running_heavy_backend_on_gpu env meta.gpu (some bk) ⟨2, 0, 0⟩).2.2,
      ∃ n, a = Act.queryStatus n :=
    fun a ha => scanHeavy_trace env meta.gpu (some bk) BACKENDS ⟨2, 0, 0⟩ a ha
  refine ⟨?_, ?_, ?_⟩
  · rintro ⟨hrole, hff⟩
    subst hrole
    have hrun : ensure_online_backend cfg env bk "webui" ⟨0, 0, 0⟩ =
        (some (gpuBusyWebuiErr meta.gpu (metaOf busy_bk).model),
          (running_heavy_backend_on_gpu env meta.gpu (some bk) ⟨2, 0, 0⟩).2.1,
          [Act.queryStatus meta.container, Act.acquireStart bk,
            Act.queryStatus meta.container, Act.acquireGpu meta.gpu] ++
            (running_heavy_backend_on_gpu env meta.gpu (some bk) ⟨2, 0, 0⟩).2.2 ++
            [Act.releaseGpu meta.gpu, Act.releaseStart bk]) := by
      simp [ensure_online_backend, hm, if_neg hcapn, M_bind_apply, M_pure_apply,
        containerStatusA, hst1, hst2, withLockA, emitA, startSection, gpuPolicy,
        hoh, hkind, hscan, hff]
    rw [hrun]
    refine ⟨rfl, ?_⟩
    intro nm hmem
    simp only [List.mem_append, List.mem_cons, List.not_mem_nil] at hmem
    rcases hmem with ((h | h | h | h | h) | h) | (h | h | h)
    all_goals first
    | cases h
    | (rcases hmemS _ h with ⟨n2, hn2⟩; cases hn2)
  · rintro ⟨hrole, hgpu, hpre⟩
    subst hrole
    obtain ⟨k, hk⟩ : ∃ k, cfg.maxRetries = k + 1 := by
      cases hmr : cfg.maxRetries with
      | zero => rw [hmr] at hfuel; omega
      | succ k => exact ⟨k, rfl⟩
    have hwf : ("n8n" == "webui") = false := by decide
    have hgpub : (meta.gpu == "1") = true := by simp [hgpu]
    rw [hgpu] at hscan
    by_cases hd : (cfg.stopEmbed = true ∧ meta.gpu = "1") ∧ meta.model ∈ GPU1_GENERATORS
    · have hl := startLoop_start_mem cfg env bk meta k none
      constructor <;>
        · simp [ensure_online_backend, hm, if_neg hcapn, M_bind_apply, M_pure_apply,
            containerStatusA, hst1, hst2, withLockA, emitA, startSection, gpuPolicy,
            hoh, hkind, hscan, hwf, hgpub, hpre, hd, hk, stopContainerA,
            List.mem_append, hl]
    · have hl := startLoop_start_mem cfg env bk meta k none
      constructor
      · simp [ensure_online_backend, hm, if_neg hcapn, M_bind_apply, M_pure_apply,
          containerStatusA, hst1, hst2, withLockA, emitA, startSection, gpuPolicy,
          hoh, hkind, hscan, hwf, hgpu, hgpub, hpre, hd, hk, stopContainerA,
          List.mem_append, hl]
      · by_cases hc : cfg.stopEmbed = true ∧ meta.model ∈ GPU1_GENERATORS <;>
          simp [ensure_online_backend, hm, if_neg hcapn, M_bind_apply, M_pure_apply,
            containerStatusA, hst1, hst2, withLockA, emitA, startSection, gpuPolicy,
            hoh, hkind, hscan, hwf, hgpu, hgpub, hpre, hk, stopContainerA,
            List.mem_append, hl, hc]
  · intro hA hB
    have h1 : (role == "webui" && cfg.webuiFailFast) = false := by
      by_cases hr : role = "webui"
      · subst hr
        cases hffv : cfg.webuiFailFast
        · simp
        · exact absurd ⟨rfl, hffv⟩ hA
      · simp [hr]
    have h2 : (role == "n8n" && (meta.gpu == "1") && cfg.preemptGpu1) = false := by
      by_cases hr : role = "n8n"
      · subst hr
        by_cases hg : meta.gpu = "1"
        · cases hpv : cfg.preemptGpu1
          · simp
          · exact absurd ⟨rfl, hg, hpv⟩ hB
        · simp [hg]
      · simp [hr]
    have hrun : ensure_online_backend cfg env bk role ⟨0, 0, 0⟩ =
        (some (gpuBusyErr meta.gpu (metaOf busy_bk).model),
          (running_heavy_backend_on_gpu env meta.gpu (some bk) ⟨2, 0, 0⟩).2.1,
          [Act.queryStatus meta.container, Act.acquireStart bk,
            Act.queryStatus meta.container, Act.acquireGpu meta.gpu] ++
            (running_heavy_backend_on_gpu env meta.gpu (some bk) ⟨2, 0, 0⟩).2.2 ++
            [Act.releaseGpu meta.gpu, Act.releaseStart bk]) := by
      simp [ensure_online_backend, hm, if_neg hcapn, M_bind_apply, M_pure_apply,
        containerStatusA, hst1, hst2, withLockA, emitA, startSection, gpuPolicy,
        hoh, hkind, hscan, h1, h2]
    rw [hrun]
    refine ⟨rfl, ?_⟩
    intro nm hmem
    simp only [List.mem_append, List.mem_cons, List.not_mem_nil] at hmem
    rcases hmem with ((h | h | h | h | h) | h) | (h | h | h)
    all_goals first
    | cases h
    | (rcases hmemS _ h with ⟨n2, hn2⟩; cases hn2)

/-- C1 (witness): with the default flags, an automation request for the GPU1
deepseek backend while the GPU1 llama backend is running stops the incumbent
container and issues a start for the target container. -/
theorem ensure_one_heavy_policy_witness :
    Act.stopC "llama_1" ∈
        (ensure_online_backend defaultCfg
          { inflight := fun _ => 0,
            contStatus := fun _ n => if n = "llama_1" then ⟨true, true⟩ else ⟨true, false⟩,
            healthy := fun _ => true, startOk := fun _ => true, tbText := fun _ => "" }
          "deepseek-r1-8b@1" "n8n" ⟨0, 0, 0⟩).2.2 ∧
      Act.startC "r1_1" ∈
        (ensure_online_backend defaultCfg
          { inflight := fun _ => 0,
            contStatus := fun _ n => if n = "llama_1" then ⟨true, true⟩ else ⟨true, false⟩,
            healthy := fun _ => true, startOk := fun _ => true, tbText := fun _ => "" }
          "deepseek-r1-8b@1" "n8n" ⟨0, 0, 0⟩).2.2 := by
  have h := (ensure_one_heavy_policy defaultCfg
    { inflight := fun _ => 0,
      contStatus := fun _ n => if n = "llama_1" then ⟨true, true⟩ else ⟨true, false⟩,
      healthy := fun _ => true, startOk := fun _ => true, tbText := fun _ => "" }
    "deepseek-r1-8b@1" "llama31-8b-instruct@1" "n8n"
    ⟨"deepseek-r1-8b", "chat", "1", "throughput", "http://r1_1:8000/v1", "r1_1"⟩
    (by decide) (by decide) rfl rfl (by decide) (by decide) (by decide)
    (by decide)).2.1 ⟨rfl, rfl, rfl⟩
  simpa using h

theorem tryCandidates_spec (cfg : Cfg) (env : Env) (model role : String) :
    ∀ (l : List String) (c : Cnt),
      (tryCandidates cfg env model role l c).1 =
        specTryResult model (candidatePairs cfg env role l c) := by
  intro l
  induction l with
  | nil => intro c; rfl
  | cons bk rest ih =>
      intro c
      cases hr : (ensure_online_backend cfg env bk role c).1 with
      | none =>
          simp [tryCandidates, candidatePairs, specTryResult, M_bind_apply,
            M_pure_apply, hr]
      | some e =>
          by_cases hb : busyRetryable e = true
          · simp [tryCandidates, candidatePairs, specTryResult, M_bind_apply,
              M_pure_apply, hr, hb, ih]
          · simp [tryCandidates, candidatePairs, specTryResult, M_bind_apply,
              M_pure_apply, hr, hb]

/-- C2 (amended).  The admission front end first invokes the controller on
the selector's preferred backend, then on the remaining backends of the model
in registry order; a candidate error is treated as retryable exactly when its
HTTP status is 503 and its serialized body contains the substring gpu_busy
(all gpu_busy errors are of this form, but so is a start_failed error whose
diagnostic text contains that substring); the first non-retryable outcome is
final — a success admits that candidate, any other error is surfaced
unchanged — and if every candidate is retried this way the final response is
the gpu_busy no-available-backend error. -/
theorem ensure_and_get_candidate_loop (cfg : Cfg) (env : Env) (sel : SelSt)
    (model role : String) (est : Option Int) (bk0 : String)
    (hchoose : choose_backend cfg sel model est (some role) = some bk0) :
    (ensure_and_get_backend cfg env sel model role est ⟨0, 0, 0⟩).1 =
      specTryResult model (candidatePairs cfg env role
        (bk0 :: (model_backends model).filter (fun bk => bk != bk0)) ⟨0, 0, 0⟩) := by
  simp [ensure_and_get_backend, hchoose, tryCandidates_spec]

/-- C2 (witness for the amended theorem): a concrete admission in which the
preferred backend is already running and healthy. -/
theorem ensure_and_get_candidate_loop_witness :
    (ensure_and_get_backend defaultCfg
      { inflight := fun _ => 0, contStatus := fun _ _ => ⟨true, true⟩,
        healthy := fun _ => true, startOk := fun _ => true, tbText := fun _ => "" }
      ⟨fun _ => none⟩ "llama31-8b-instruct" "webui" none ⟨0, 0, 0⟩).1 =
      specTryResult "llama31-8b-instruct"
        (candidatePairs defaultCfg
          { inflight := fun _ => 0, contStatus := fun _ _ => ⟨true, true⟩,
            healthy := fun _ => true, startOk := fun _ => true, tbText := fun _ => "" }
          "webui"
          ("llama31-8b-instruct@0" ::
            (model_backends "llama31-8b-instruct").filter
              (fun bk => bk != "llama31-8b-instruct@0")) ⟨0, 0, 0⟩) :=
  ensure_and_get_candidate_loop defaultCfg
    { inflight := fun _ => 0, contStatus := fun _ _ => ⟨true, true⟩,
      healthy := fun _ => true, startOk := fun _ => true, tbText := fun _ => "" }
    ⟨fun _ => none⟩ "llama31-8b-instruct" "webui" none "llama31-8b-instruct@0"
    (by rfl)

/-- C2 (counterexample).  The claim says any candidate error other than
gpu_busy is returned to the client unchanged without trying further
candidates.  But the code classifies retryable errors by searching the
serialized body for the substring gpu_busy: here the first candidate fails
with a start_failed error whose engine diagnostic contains that substring,
and instead of surfacing it the front end tries (and admits) the next
candidate. -/
theorem ensure_and_get_counterexample :
    (ensure_online_backend { defaultCfg with maxRetries := 1 }
        { inflight := fun _ => 0,
          contStatus := fun _ n => if n = "llama_1" then ⟨true, true⟩ else ⟨true, false⟩,
          healthy := fun _ => true, startOk := fun _ => false,
          tbText := fun _ => "docker.errors.APIError: watchdog gpu_busy tripped" }
        "llama31-8b-instruct@0" "webui" ⟨0, 0, 0⟩).1 =
      some ⟨503,
        "Backend start failed after 1 attempts: docker.errors.APIError: watchdog gpu_busy tripped",
        "start_failed"⟩ ∧
    (ensure_and_get_backend { defaultCfg with maxRetries := 1 }
        { inflight := fun _ => 0,
          contStatus := fun _ n => if n = "llama_1" then ⟨true, true⟩ else ⟨true, false⟩,
          healthy := fun _ => true, startOk := fun _ => false,
          tbText := fun _ => "docker.errors.APIError: watchdog gpu_busy tripped" }
        ⟨fun _ => none⟩ "llama31-8b-instruct" "webui" none ⟨0, 0, 0⟩).1 =
      (some "llama31-8b-instruct@1", none) := by
  constructor <;> (set_option maxRecDepth 4000 in rfl)
